import Mathlib

/-!
# Verification of the coolmasternet bridge client

A shallow embedding of `pycoolmasternet_async/coolmasternet.py` (a client for
the CoolMasterNet HVAC bridge's prompt-delimited TCP protocol), together with
theorems checking the natural-language specification against it.

The stateful transaction code is embedded as pure functions over an explicit
model of what the wire delivered (`Wire`), and the semaphore-bounded
concurrency of `_make_request` as a step relation on a counter state
(`PoolState`).  Python string primitives used by the source
(`str.strip`, `re.split`, `str.replace`, slicing, `float(...)`, ...) are
modelled over `List Char`; Python `float` is modelled exactly on plain decimal
literals, with the value kept as a rational (the protocol only carries one
fractional digit, where binary floating point is exact).
-/

/-! ## Python string primitives -/

/-- The ASCII whitespace characters matched by Python's `str.strip()` and by
the regex class backslash-s: space, tab, newline, carriage return, vertical
tab, form feed. -/
def isPySpace (c : Char) : Bool :=
  c = ' ' || c = '\t' || c = '\n' || c = '\r' || c = '\x0b' || c = '\x0c'

/-- Python `s.strip()`: remove leading and trailing whitespace. -/
def pyStrip (s : String) : String :=
  String.mk (((s.toList.dropWhile isPySpace).reverse.dropWhile isPySpace).reverse)

/-- Worker for `reSplitWS`.  The fuel only bounds the recursion (it decreases
by one per step while at least one character is consumed per step, so
`fuel = length` never runs out; at fuel 0 the result agrees with the empty
list case). -/
def reSplitWSGo : Nat → List Char → List Char → List String
  | 0, _, acc => [String.mk acc.reverse]
  | _ + 1, [], acc => [String.mk acc.reverse]
  | fuel + 1, c :: rest, acc =>
    if isPySpace c then
      String.mk acc.reverse :: reSplitWSGo fuel (rest.dropWhile isPySpace) []
    else
      reSplitWSGo fuel rest (c :: acc)

/-- Python `re.split(backslash-s+, s)`: split `s` at each maximal run of
whitespace.  A leading (trailing) run contributes a leading (trailing) empty
string, and `re.split` of the empty string is `[""]`, as in Python. -/
def reSplitWS (s : String) : List String :=
  reSplitWSGo s.toList.length s.toList []

/-- Python slicing `s[:-n]` (for `n` at most the length: drop the last `n`
characters). -/
def pyDropRight (s : String) (n : Nat) : String :=
  String.mk (s.toList.take (s.toList.length - n))

/-- Python `s[-1]`, the last character.  Python raises IndexError on an empty
string; the call sites below only reach this on non-empty fields, so the
default on `""` is irrelevant. -/
def pyLastChar (s : String) : Char :=
  s.toList.getLastD '\x00'

/-- Python `s.lower()` (restricted to ASCII, which is all the protocol
carries). -/
def pyLower (s : String) : String :=
  String.mk (s.toList.map Char.toLower)

/-- Python `s.endswith(t)`. -/
def pyEndsWith (s t : String) : Bool :=
  t.toList.isSuffixOf s.toList

/-- Python `s.startswith(t)`. -/
def pyStartsWith (s t : String) : Bool :=
  t.toList.isPrefixOf s.toList

/-- Worker for `pyReplace`; fuel bounds the recursion (one character is
consumed per step, and a successful match consumes the non-empty pattern). -/
def replaceGo : Nat → List Char → List Char → List Char → List Char
  | 0, _, _, l => l
  | _ + 1, _, _, [] => []
  | fuel + 1, pat, repl, c :: rest =>
    if pat.isPrefixOf (c :: rest) then
      repl ++ replaceGo fuel pat repl ((c :: rest).drop pat.length)
    else
      c :: replaceGo fuel pat repl rest

/-- Python `s.replace(pat, repl)` for a non-empty pattern: replace each
non-overlapping occurrence, scanning left to right.  (The source only uses
the pattern "UID".) -/
def pyReplace (s pat repl : String) : String :=
  String.mk (replaceGo s.toList.length pat.toList repl.toList s.toList)

/-- Worker for `pySplitCRLF`. -/
def splitCRLFGo : List Char → List Char → List String
  | [], acc => [String.mk acc.reverse]
  | '\r' :: '\n' :: rest, acc => String.mk acc.reverse :: splitCRLFGo rest []
  | c :: rest, acc => splitCRLFGo rest (c :: acc)

/-- Python `s.split(CRLF)`: split on each occurrence of the two-character
separator, keeping empty pieces, `[""]` on the empty string. -/
def pySplitCRLF (s : String) : List String :=
  splitCRLFGo s.toList []

/-- Python `str(list_of_strings)`, as used in the malformed-status-line error
message. -/
def pyStrList (fields : List String) : String :=
  "[" ++ String.intercalate ", " (fields.map (fun f => "'" ++ f ++ "'")) ++ "]"

/-! ## Python `float` on plain decimal literals

`float(s)` is modelled in two stages: `pyFloatParts` does all the (decidable)
string work — optional surrounding whitespace, an optional sign, digits, an
optional point and fraction digits, at least one digit in total — and
`partsVal` turns the parts into the exact rational value.  Exponents,
`inf`/`nan` and underscores are not modelled: the protocol's temperature
fields never use them.  `none` models Python's ValueError. -/

/-- Numeric value of one ASCII digit. -/
def digitVal (c : Char) : Nat := c.toNat - 48

/-- Value of a string of ASCII digits, most significant first. -/
def digitsVal (l : List Char) : Nat :=
  l.foldl (fun a c => 10 * a + digitVal c) 0

/-- The pieces of a plain decimal literal. -/
structure FloatParts where
  sign : Int
  intVal : Nat
  fracVal : Nat
  fracLen : Nat
deriving DecidableEq, Repr

/-- Parse a plain decimal literal as Python `float` does, into its pieces:
optional surrounding whitespace, an optional sign, integer digits, an
optional point followed by fraction digits, at least one digit in total. -/
def pyFloatParts (s : String) : Option FloatParts :=
  let l := ((s.toList.dropWhile isPySpace).reverse.dropWhile isPySpace).reverse
  let sign : Int := if l.head? = some '-' then -1 else 1
  let l' := if l.head? = some '-' ∨ l.head? = some '+' then l.tail else l
  let intPart := l'.takeWhile Char.isDigit
  let rest := l'.dropWhile Char.isDigit
  if rest = [] then
    if intPart.isEmpty then none
    else some ⟨sign, digitsVal intPart, 0, 0⟩
  else if rest.head? = some '.' then
    let frac := rest.tail.takeWhile Char.isDigit
    if (rest.tail.dropWhile Char.isDigit).isEmpty then
      if intPart.isEmpty && frac.isEmpty then none
      else some ⟨sign, digitsVal intPart, digitsVal frac, frac.length⟩
    else none
  else none

/-- The rational value of the pieces. -/
def partsVal (p : FloatParts) : Rat :=
  p.sign * ((p.intVal : Rat) + (p.fracVal : Rat) / (10 : Rat) ^ p.fracLen)

/-- Python `float(s)` on plain decimal literals; `none` is ValueError. -/
def pyFloat (s : String) : Option Rat :=
  (pyFloatParts s).map partsVal

/-- Decidable equality for `Except`, so that concrete runs of the fallible
operations can be checked by `decide`. -/
instance {ε α : Type} [DecidableEq ε] [DecidableEq α] : DecidableEq (Except ε α) := by
  intro x y
  cases x <;> cases y
  case error.error a b =>
    exact if h : a = b then isTrue (by rw [h]) else isFalse (fun hh => h (Except.error.inj hh))
  case ok.ok a b =>
    exact if h : a = b then isTrue (by rw [h]) else isFalse (fun hh => h (Except.ok.inj hh))
  case error.ok a b => exact isFalse (fun hh => Except.noConfusion hh)
  case ok.error a b => exact isFalse (fun hh => Except.noConfusion hh)

/-! ## Errors and the transaction protocol (`CoolMasterNet._make_request`) -/

/-- The exceptions the client can raise.
`timeout` is `asyncio.TimeoutError` from `asyncio.wait_for`;
`protocolError msg` is the source's `ConnectionError(msg)` (the spec's
ProtocolError); `valueError msg` is the source's `ValueError(msg)` (both
validation errors and numeric-conversion errors, as in Python). -/
inductive CmError where
  | timeout
  | protocolError (msg : String)
  | valueError (msg : String)
deriving DecidableEq, Repr

/-- What the wire delivers during one transaction: the bytes returned by
`reader.readuntil(gt)` for the prompt (up to and including the first `>`;
`none` when the read timed out), and likewise the bytes returned by
`reader.readuntil(newline-gt)` for the response. -/
structure Wire where
  promptRead : Option String
  responseRead : Option String
deriving DecidableEq

/-- `CoolMasterNet._make_request(request)`: validate the prompt, send the
request line, read and unframe the response.  Returns the outcome together
with the list of strings written to the connection (so that "nothing was
sent" is part of the model). -/
def makeRequest (request : String) (w : Wire) : Except CmError String × List String :=
  match w.promptRead with
  | none => (Except.error CmError.timeout, [])
  | some prompt =>
    if prompt ≠ ">" then
      (Except.error (CmError.protocolError "CoolMasterNet prompt not found"), [])
    else
      match w.responseRead with
      | none => (Except.error CmError.timeout, [request ++ "\n"])
      | some response =>
        let data := response
        let data := if pyEndsWith data "\n>" then pyDropRight data 1 else data
        let data := if pyEndsWith data "OK\r\n" then pyDropRight data 4 else data
        (Except.ok data, [request ++ "\n"])

/-- Modelled from the spec: "Decode as ASCII.  Strip exactly one trailing
greater-than sign if the decoded text ends with newline-then-greater-than.
Strip a trailing OK-CR-LF if present (success marker).  Return the remaining
text as the response body." -/
def responseBodySpec (s : String) : String :=
  let afterPrompt := if pyEndsWith s "\n>" then pyDropRight s 1 else s
  if pyEndsWith afterPrompt "OK\r\n" then pyDropRight afterPrompt 4 else afterPrompt

/-! ## `CoolMasterNet.info` -/

/-- Python `d[k] = v` on a dict kept as an insertion-ordered association
list: overwrite in place if the key is present, else append. -/
def dictInsert (d : List (String × String)) (k v : String) : List (String × String) :=
  if d.any (fun p => p.1 = k) then
    d.map (fun p => if p.1 = k then (k, v) else p)
  else
    d ++ [(k, v)]

/-- Python `dict(key_values)`: each element must be a pair, later keys
overwrite earlier ones; `none` models the ValueError raised on an element
that is not a pair. -/
def pyDictBuild (ps : List (List String)) : Option (List (String × String)) :=
  ps.foldlM
    (fun d kv =>
      match kv with
      | [k, v] => some (dictInsert d k v)
      | _ => none)
    []

/-- Dict lookup on the association-list representation. -/
def pyGet : List (String × String) → String → Option String
  | [], _ => none
  | p :: d, k => if p.1 = k then some p.2 else pyGet d k

/-- Python `re.split(backslash-s* colon backslash-s*, line, 1)`: split at the
first colon, discarding the whitespace run immediately before and after it;
a line with no colon stays whole. -/
def reSplitColon1 (line : String) : List String :=
  let l := line.toList
  match l.findIdx? (fun c => c = ':') with
  | none => [line]
  | some j =>
    [String.mk ((l.take j).reverse.dropWhile isPySpace).reverse,
     String.mk ((l.drop (j + 1)).dropWhile isPySpace)]

/-- `CoolMasterNet.info`, applied to the body returned by
`_make_request("set")`: strip, split on CRLF, split each line once at a
colon, build a dict. -/
def infoParse (raw : String) : Option (List (String × String)) :=
  pyDictBuild ((pySplitCRLF (pyStrip raw)).map reSplitColon1)

/-! ## Constants and `CoolMasterNetUnit._parse` -/

/-- `_MODES`. -/
def MODES : List String := ["auto", "cool", "dry", "fan", "heat"]

/-- `_SWING_CHAR_TO_NAME`. -/
def SWING_CHAR_TO_NAME : List (String × String) :=
  [("a", "auto"), ("h", "horizontal"), ("3", "30"), ("4", "45"),
   ("6", "60"), ("v", "vertical"), ("x", "stop")]

/-- `_SWING_NAME_TO_CHAR` (the inverted table). -/
def SWING_NAME_TO_CHAR : List (String × String) :=
  SWING_CHAR_TO_NAME.map (fun p => (p.2, p.1))

/-- `SWING_MODES`. -/
def SWING_MODES : List String := SWING_CHAR_TO_NAME.map (fun p => p.2)

/-- `_SWING_NAME_TO_CHAR[value]` (only evaluated after a membership check in
the source; the default on a missing key is unreachable there). -/
def swingChar (name : String) : String :=
  ((SWING_NAME_TO_CHAR.find? (fun p => p.1 = name)).map (fun p => p.2)).getD ""

/-- `_SWING_CHAR_TO_NAME.get(code)`. -/
def swingName (code : String) : Option String :=
  (SWING_CHAR_TO_NAME.find? (fun p => p.1 = code)).map (fun p => p.2)

/-- `float(field[:-1])` as applied to the thermostat and temperature tokens
(drop the trailing unit character, then convert), with Python's ValueError
on failure. -/
def tempToken (t : String) : Except CmError Rat :=
  match pyFloat (pyDropRight t 1) with
  | some q => Except.ok q
  | none =>
    Except.error
      (CmError.valueError
        ("could not convert string to float: '" ++ pyDropRight t 1 ++ "'"))

/-- `"imperial" if field[-1] == "F" else "celsius"`. -/
def unitOfToken (t : String) : String :=
  if pyLastChar t = 'F' then "imperial" else "celsius"

/-- The parsed fields of a `CoolMasterNetUnit` snapshot (`_parse`). -/
structure UnitState where
  is_on : Bool
  temperature_unit : String
  thermostat : Rat
  temperature : Rat
  fan_speed : String
  mode : String
  error_code : Option String
  clean_filter : Bool
  demand : Bool
  swing : Option String
deriving DecidableEq, Repr

/-- `CoolMasterNetUnit._parse`: split the stripped raw line on whitespace
runs, require exactly 9 fields (else `ConnectionError`), then convert each
field.  `raw` is the status line, `swing_raw` the trimmed swing-query
response ("" when swing support is off).  All 9 fields are non-empty
whenever the split yields 9 of them, so the `getD` defaults are never
consulted. -/
def parseUnit (raw : String) (swing_raw : String) : Except CmError UnitState :=
  let fields := reSplitWS (pyStrip raw)
  if fields.length = 9 then do
    let thermostat ← tempToken (fields.getD 2 "")
    let temperature ← tempToken (fields.getD 3 "")
    Except.ok
      { is_on := fields.getD 1 "" = "ON"
        temperature_unit := unitOfToken (fields.getD 2 "")
        thermostat := thermostat
        temperature := temperature
        fan_speed := pyLower (fields.getD 4 "")
        mode := pyLower (fields.getD 5 "")
        error_code := if fields.getD 6 "" ≠ "OK" then some (fields.getD 6 "") else none
        clean_filter := fields.getD 7 "" = "#"
        demand := fields.getD 8 "" = "1"
        swing := swingName swing_raw }
  else
    Except.error
      (CmError.protocolError ("Unexpected status line format: " ++ pyStrList fields))

/-! ## Mutator wire traces

Each mutator is embedded as the sequence of request strings it hands to
`_make_request`, together with the exception it raises, if any (`none` means
it completes and returns the refreshed snapshot).  This captures exactly
"what goes on the wire and in which order" without modelling the replies to
the refresh requests. -/

/-- `CoolMasterNetUnit._make_unit_request`: substitute the unit id for the
placeholder `UID` in the command template. -/
def make_unit_request_text (uid request : String) : String :=
  pyReplace request "UID" uid

/-- The requests issued by `CoolMasterNetUnit.refresh` (via `create` with no
pre-fetched line): the per-unit listing, plus the swing query when the
bridge was built with swing support. -/
def refreshRequests (swingSupport : Bool) (uid : String) : List String :=
  ("ls2 " ++ uid) :: (if swingSupport then ["query " ++ uid ++ " s"] else [])

/-- `CoolMasterNetUnit.set_mode`: reject a value outside `_MODES` before
anything is sent; otherwise send the mode command and refresh. -/
def set_mode_trace (swingSupport : Bool) (uid value : String) :
    List String × Option CmError :=
  if MODES.contains value then
    (make_unit_request_text uid (value ++ " UID") :: refreshRequests swingSupport uid,
     none)
  else
    ([],
     some (CmError.valueError
       ("Unrecognized mode " ++ value ++ ". Valid values: "
         ++ String.intercalate " " MODES)))

/-- `CoolMasterNetUnit.set_swing`: reject a value outside `SWING_MODES`
before anything is sent; otherwise send the swing command and, if the bridge
answers with an "Unsupported Feature" prefix, raise without refreshing, else
refresh.  `response` is the body `_make_request` returned for the swing
command. -/
def set_swing_trace (swingSupport : Bool) (uid value response : String) :
    List String × Option CmError :=
  if SWING_MODES.contains value then
    let sent := make_unit_request_text uid ("swing UID " ++ swingChar value)
    if pyStartsWith response "Unsupported Feature" then
      ([sent],
       some (CmError.valueError
         ("Unit " ++ uid ++ " doesn't support swing mode " ++ value ++ ".")))
    else
      (sent :: refreshRequests swingSupport uid, none)
  else
    ([],
     some (CmError.valueError
       ("Unrecognized swing mode " ++ value ++ ". Valid values: "
         ++ String.intercalate ", " SWING_MODES)))

/-! ## The bounded transaction pool

`CoolMasterNet.__init__` creates `asyncio.Semaphore(3)`, and `_make_request`
runs its whole body under `async with` on that semaphore, opening the
connection after acquiring and closing it in a `try/finally` before the
semaphore is released.  Tasks are interchangeable, so the system is embedded
as counters of tasks per program point, with a nondeterministic step
relation:

* `ready`: before the `async with` (no slot, no socket);
* `opening`: slot held, `open_connection` in flight (no socket yet);
* `working`: slot held, socket open, request/response body running
  (any outcome — success, bad prompt, timeout — leads to the `finally`);
* `closing`: slot held, socket still open, in the `finally`
  (`writer.close(); await writer.wait_closed()`);
* `done`: socket closed and slot released.

`avail` is the semaphore's counter: acquiring decrements it and is only
possible when it is positive (the semaphore's contract), releasing
increments it. -/

/-- Counters of tasks at each program point of `_make_request`, plus the
semaphore value. -/
structure PoolState where
  avail : Nat
  nReady : Nat
  nOpening : Nat
  nWorking : Nat
  nClosing : Nat
  nDone : Nat
deriving DecidableEq, Repr

/-- One scheduler step of the system of transactions. -/
inductive PoolStep : PoolState → PoolState → Prop where
  /-- A task enters the `async with`: the semaphore must be positive. -/
  | acquire (a r o w c d : Nat) :
      PoolStep ⟨a + 1, r + 1, o, w, c, d⟩ ⟨a, r, o + 1, w, c, d⟩
  /-- `open_connection` succeeds: the socket is now open. -/
  | connect (a r o w c d : Nat) :
      PoolStep ⟨a, r, o + 1, w, c, d⟩ ⟨a, r, o, w + 1, c, d⟩
  /-- `open_connection` raises: no socket was opened, the `async with`
  releases the slot on the way out. -/
  | connectFail (a r o w c d : Nat) :
      PoolStep ⟨a, r, o + 1, w, c, d⟩ ⟨a + 1, r, o, w, c, d + 1⟩
  /-- The `try` body finishes — normally or with any exception (bad prompt,
  timeout, connection reset) — and control enters the `finally`. -/
  | finish (a r o w c d : Nat) :
      PoolStep ⟨a, r, o, w + 1, c, d⟩ ⟨a, r, o, w, c + 1, d⟩
  /-- The `finally` closes the socket, and the `async with` releases the
  slot. -/
  | close (a r o w c d : Nat) :
      PoolStep ⟨a, r, o, w, c + 1, d⟩ ⟨a + 1, r, o, w, c, d + 1⟩

/-- The initial state: a fresh bridge (semaphore at 3) and `n` transactions
about to run. -/
def poolInit (n : Nat) : PoolState := ⟨3, n, 0, 0, 0, 0⟩

/-- Number of open sockets. -/
def openConns (s : PoolState) : Nat := s.nWorking + s.nClosing

/-- Number of semaphore slots currently held. -/
def heldSlots (s : PoolState) : Nat := s.nOpening + s.nWorking + s.nClosing

/-- States reachable from `n` concurrent transactions on a fresh bridge. -/
def PoolReachable (n : Nat) (s : PoolState) : Prop :=
  Relation.ReflTransGen PoolStep (poolInit n) s

/-! ## The canonical temperature serialization (spec side)

The source never re-serializes temperatures; the spec's round-trip property
needs one, so it is modelled from the spec. -/

/-- Worker for `natDigits`; the fuel only bounds the recursion
(`n` shrinks by a factor of 10 each step, so `n + 1` never runs out). -/
def natDigitsGo : Nat → Nat → List Char → List Char
  | 0, _, acc => acc
  | fuel + 1, n, acc =>
    if n < 10 then Nat.digitChar n :: acc
    else natDigitsGo fuel (n / 10) (Nat.digitChar (n % 10) :: acc)

/-- The decimal digits of `n`, most significant first, without leading
zeros (and `"0"` for 0). -/
def natDigits (n : Nat) : List Char :=
  natDigitsGo (n + 1) n []

/-- Modelled from the spec: the canonical textual form of a temperature of
`n` tenths of a degree — "decimal (1 fractional digit)" followed by the unit
suffix (`F` for imperial, `C` for celsius).  This is the serialization the
spec's round-trip property re-applies to a parsed snapshot. -/
def canonicalToken (n : Nat) (u : String) : String :=
  String.mk (natDigits (n / 10)) ++ "." ++ String.mk [Nat.digitChar (n % 10)]
    ++ (if u = "imperial" then "F" else "C")

/-! ## Helper lemmas -/

theorem toList_mk (l : List Char) : (String.mk l).toList = l := rfl

theorem toList_append (a b : String) : (a ++ b).toList = a.toList ++ b.toList := rfl

theorem dropWhile_eq_self_of {α} (p : α → Bool) :
    ∀ l : List α, (∀ x ∈ l, p x = false) → l.dropWhile p = l
  | [], _ => rfl
  | a :: l, h => by
    rw [List.dropWhile_cons, h a (List.mem_cons_self a l)]
    simp

/-- Stripping whitespace from both ends, as written inline in
`pyFloatParts`, is the identity on a list with no whitespace. -/
theorem stripEnds_noop (l : List Char) (h : ∀ x ∈ l, isPySpace x = false) :
    ((l.dropWhile isPySpace).reverse.dropWhile isPySpace).reverse = l := by
  rw [dropWhile_eq_self_of isPySpace l h,
    dropWhile_eq_self_of isPySpace l.reverse
      (fun x hx => h x (List.mem_reverse.mp hx)),
    List.reverse_reverse]

theorem takeWhile_append_not {α} (p : α → Bool) :
    ∀ (l : List α) (x : α) (r : List α), (∀ y ∈ l, p y = true) → p x = false →
      (l ++ x :: r).takeWhile p = l ∧ (l ++ x :: r).dropWhile p = x :: r := by
  intro l
  induction l with
  | nil => intro x r _ hx; simp [List.takeWhile_cons, List.dropWhile_cons, hx]
  | cons a l ih =>
    intro x r h hx
    have ha := h a (List.mem_cons_self a l)
    have hrec := ih x r (fun y hy => h y (List.mem_cons_of_mem a hy)) hx
    simp [List.takeWhile_cons, List.dropWhile_cons, ha, hrec.1, hrec.2]

theorem digitChar_isDigit : ∀ m, m < 10 → (Nat.digitChar m).isDigit = true := by decide

theorem digitVal_digitChar : ∀ m, m < 10 → digitVal (Nat.digitChar m) = m := by decide

theorem isDigit_not_space {c : Char} (h : c.isDigit = true) : isPySpace c = false := by
  simp only [isPySpace, Bool.or_eq_false_iff, decide_eq_false_iff_not]
  refine ⟨⟨⟨⟨⟨?_, ?_⟩, ?_⟩, ?_⟩, ?_⟩, ?_⟩ <;>
    (rintro rfl; exact absurd h (by decide))

theorem isDigit_ne_minus {c : Char} (h : c.isDigit = true) : c ≠ '-' := by
  rintro rfl; exact absurd h (by decide)

theorem isDigit_ne_plus {c : Char} (h : c.isDigit = true) : c ≠ '+' := by
  rintro rfl; exact absurd h (by decide)

theorem isDigit_ne_dot {c : Char} (h : c.isDigit = true) : c ≠ '.' := by
  rintro rfl; exact absurd h (by decide)

theorem foldl_digit_shift :
    ∀ (l : List Char) (v : Nat),
      l.foldl (fun a c => 10 * a + digitVal c) v = v * 10 ^ l.length + digitsVal l := by
  intro l
  induction l with
  | nil => intro v; simp [digitsVal]
  | cons c l ih =>
    intro v
    simp only [digitsVal, List.foldl_cons, List.length_cons] at *
    rw [ih (10 * v + digitVal c), ih (10 * 0 + digitVal c)]
    ring

theorem digitsVal_cons (c : Char) (l : List Char) :
    digitsVal (c :: l) = digitVal c * 10 ^ l.length + digitsVal l := by
  simpa [digitsVal] using foldl_digit_shift l (digitVal c)

theorem natDigitsGo_isDigit :
    ∀ (fuel n : Nat) (acc : List Char), (∀ c ∈ acc, c.isDigit = true) →
      ∀ c ∈ natDigitsGo fuel n acc, c.isDigit = true := by
  intro fuel
  induction fuel with
  | zero => intro n acc hacc; simpa [natDigitsGo] using hacc
  | succ fuel ih =>
    intro n acc hacc c hc
    rw [natDigitsGo] at hc
    by_cases hn : n < 10
    · rw [if_pos hn] at hc
      rcases List.mem_cons.mp hc with rfl | hmem
      · exact digitChar_isDigit n hn
      · exact hacc c hmem
    · rw [if_neg hn] at hc
      refine ih (n / 10) (Nat.digitChar (n % 10) :: acc) ?_ c hc
      intro x hx
      rcases List.mem_cons.mp hx with rfl | hmem
      · exact digitChar_isDigit _ (Nat.mod_lt n (by omega))
      · exact hacc x hmem

theorem natDigitsGo_ne_nil_of_acc :
    ∀ (fuel n : Nat) (acc : List Char), acc ≠ [] → natDigitsGo fuel n acc ≠ [] := by
  intro fuel
  induction fuel with
  | zero => intro n acc hacc; simpa [natDigitsGo] using hacc
  | succ fuel ih =>
    intro n acc hacc
    rw [natDigitsGo]
    by_cases hn : n < 10
    · rw [if_pos hn]; exact List.cons_ne_nil _ _
    · rw [if_neg hn]; exact ih _ _ (List.cons_ne_nil _ _)

theorem natDigits_ne_nil (n : Nat) : natDigits n ≠ [] := by
  rw [natDigits, natDigitsGo]
  by_cases hn : n < 10
  · rw [if_pos hn]; exact List.cons_ne_nil _ _
  · rw [if_neg hn]; exact natDigitsGo_ne_nil_of_acc _ _ _ (List.cons_ne_nil _ _)

theorem natDigits_isDigit (n : Nat) : ∀ c ∈ natDigits n, c.isDigit = true :=
  natDigitsGo_isDigit (n + 1) n [] (by simp)

theorem digitsVal_natDigitsGo :
    ∀ (fuel n : Nat) (acc : List Char), n < fuel →
      digitsVal (natDigitsGo fuel n acc) = n * 10 ^ acc.length + digitsVal acc := by
  intro fuel
  induction fuel with
  | zero => intro n acc h; omega
  | succ fuel ih =>
    intro n acc h
    rw [natDigitsGo]
    by_cases hn : n < 10
    · rw [if_pos hn, digitsVal_cons, digitVal_digitChar n hn]
    · rw [if_neg hn, ih (n / 10) _ (by omega)]
      rw [digitsVal_cons, digitVal_digitChar _ (Nat.mod_lt n (by omega))]
      simp only [List.length_cons, pow_succ]
      have hdm : n / 10 * 10 + n % 10 = n := by omega
      calc n / 10 * (10 ^ acc.length * 10) + (n % 10 * 10 ^ acc.length + digitsVal acc)
          = (n / 10 * 10 + n % 10) * 10 ^ acc.length + digitsVal acc := by ring
        _ = n * 10 ^ acc.length + digitsVal acc := by rw [hdm]

theorem digitsVal_natDigits (n : Nat) : digitsVal (natDigits n) = n := by
  have h := digitsVal_natDigitsGo (n + 1) n [] (by omega)
  simpa [natDigits, digitsVal] using h

/-- `pyFloatParts` on a token of the shape digits-dot-digit. -/
theorem pyFloatParts_canonical (ds : List Char) (c : Char)
    (hne : ds ≠ []) (hdig : ∀ x ∈ ds, x.isDigit = true) (hc : c.isDigit = true) :
    pyFloatParts (String.mk (ds ++ '.' :: [c])) = some ⟨1, digitsVal ds, digitsVal [c], 1⟩ := by
  obtain ⟨d, ds', rfl⟩ := List.exists_cons_of_ne_nil hne
  have hd : d.isDigit = true := hdig d (List.mem_cons_self d ds')
  have hnospace : ∀ x ∈ (d :: ds') ++ '.' :: [c], isPySpace x = false := by
    intro x hx
    rcases List.mem_append.mp hx with h1 | h2
    · exact isDigit_not_space (hdig x h1)
    · rcases List.mem_cons.mp h2 with rfl | h3
      · decide
      · rcases List.mem_cons.mp h3 with rfl | h4
        · exact isDigit_not_space hc
        · cases h4
  have htd := takeWhile_append_not Char.isDigit (d :: ds') '.' [c] hdig (by decide)
  simp only [pyFloatParts, toList_mk, stripEnds_noop _ hnospace]
  simp only [List.cons_append, List.head?_cons, Option.some.injEq]
  rw [if_neg (show ¬(d = '-') from isDigit_ne_minus hd),
    if_neg (show ¬(d = '-' ∨ d = '+') from
      fun h => h.elim (isDigit_ne_minus hd) (isDigit_ne_plus hd))]
  simp only [← List.cons_append, htd.1, htd.2]
  rw [if_neg (show ¬(('.' :: [c] : List Char) = []) from by simp)]
  rw [if_pos (show (('.' :: [c] : List Char).head? = some '.') from rfl)]
  simp only [List.tail_cons, List.takeWhile_cons, List.dropWhile_cons, hc]
  simp [List.isEmpty]

/-- The rational value of `n` tenths presented as integer part and one
fraction digit. -/
theorem partsVal_tenths (n : Nat) :
    partsVal ⟨1, n / 10, n % 10, 1⟩ = (n : Rat) / 10 := by
  simp only [partsVal, Int.cast_one, one_mul, pow_one]
  have h10 : (10 : Rat) ≠ 0 := by norm_num
  field_simp
  have hdm : n / 10 * 10 + n % 10 = n := by omega
  exact_mod_cast hdm

/-- Inserting a binding into the dict makes lookup of that key return the
inserted value: "later duplicate keys overwrite earlier ones". -/
theorem pyGet_dictInsert (d : List (String × String)) (k v : String) :
    pyGet (dictInsert d k v) k = some v := by
  induction d with
  | nil => simp [dictInsert, pyGet]
  | cons p d ih =>
    by_cases hp : p.1 = k
    · have hany : (p :: d).any (fun q => q.1 = k) = true := by
        simp [List.any_cons, hp]
      simp [dictInsert, hany, pyGet, hp]
    · by_cases hd : d.any (fun q => q.1 = k) = true
      · have hany : (p :: d).any (fun q => q.1 = k) = true := by
          simp [List.any_cons, hd]
        have ihd : pyGet (d.map (fun q => if q.1 = k then (k, v) else q)) k = some v := by
          rw [dictInsert, if_pos hd] at ih
          exact ih
        simp [dictInsert, hany, pyGet, hp, ihd]
      · have hd' : d.any (fun q => q.1 = k) = false := by
          cases hA : d.any (fun q => q.1 = k) with
          | false => rfl
          | true => exact absurd hA hd
        have hany : (p :: d).any (fun q => q.1 = k) = false := by
          rw [List.any_cons]
          simp [hp, hd']
        have ihd : pyGet (d ++ [(k, v)]) k = some v := by
          rw [dictInsert, if_neg (by simp [hd'])] at ih
          exact ih
        simp [dictInsert, hany, pyGet, hp, ihd]

/-! ## Claim theorems -/

/-- C1, counterexample: when the prompt read times out, `_make_request`
raises `asyncio.TimeoutError` (from `asyncio.wait_for`), not the
`ConnectionError("CoolMasterNet prompt not found")` that the claim asserts;
so the claim as stated is false at this input (nothing is written, though). -/
theorem c1_prompt_timeout_counterexample :
    makeRequest "ls2" ⟨none, none⟩ = (Except.error CmError.timeout, [])
      ∧ CmError.timeout ≠ CmError.protocolError "CoolMasterNet prompt not found" := by
  exact ⟨rfl, by decide⟩

/-- C1 (amended): if the prompt read times out the transaction fails with a
TimeoutError and nothing is written; if the bytes read up to the first `>`
are not exactly the prompt character the transaction fails with the
ProtocolError "CoolMasterNet prompt not found" and nothing is written. -/
theorem c1_prompt_failures_amended (req : String) (w : Wire) :
    (w.promptRead = none →
        makeRequest req w = (Except.error CmError.timeout, []))
      ∧ (∀ p, w.promptRead = some p → p ≠ ">" →
          makeRequest req w =
            (Except.error (CmError.protocolError "CoolMasterNet prompt not found"), [])) := by
  obtain ⟨pr, rr⟩ := w
  constructor
  · rintro rfl
    rfl
  · rintro p rfl hp
    simp only [makeRequest]
    rw [if_pos hp]

/-- Witness for `c1_prompt_failures_amended`: a concrete wrong prompt. -/
theorem c1_prompt_failures_amended_witness :
    (Wire.mk (some "x>") (some "")).promptRead = some "x>"
      ∧ ("x>" : String) ≠ ">"
      ∧ makeRequest "ls2" ⟨some "x>", some ""⟩ =
          (Except.error (CmError.protocolError "CoolMasterNet prompt not found"), []) :=
  ⟨rfl, by decide,
    (c1_prompt_failures_amended "ls2" ⟨some "x>", some ""⟩).2 "x>" rfl (by decide)⟩

/-- C2: for every response byte sequence read up to the terminator, a
transaction with a good prompt returns exactly the body described by the
spec — ASCII text with one trailing `>` stripped when the text ends in the
terminator, then a trailing success marker "OK-CR-LF" stripped when
present — and writes exactly the request line. -/
theorem c2_response_body (req resp : String) :
    makeRequest req ⟨some ">", some resp⟩ =
      (Except.ok (responseBodySpec resp), [req ++ "\n"]) := rfl

/-- C3: a status line whose stripped text splits on whitespace runs into a
number of fields other than 9 makes `_parse` fail with the ProtocolError
describing the malformed line, and no snapshot is produced. -/
theorem c3_field_count_protocol_error (raw swing_raw : String)
    (h : (reSplitWS (pyStrip raw)).length ≠ 9) :
    parseUnit raw swing_raw =
      Except.error (CmError.protocolError
        ("Unexpected status line format: " ++ pyStrList (reSplitWS (pyStrip raw)))) := by
  simp only [parseUnit]
  rw [if_neg h]

/-- Witness for `c3_field_count_protocol_error`: a 2-field line. -/
theorem c3_field_count_protocol_error_witness :
    (reSplitWS (pyStrip "IEF001 ON")).length ≠ 9
      ∧ parseUnit "IEF001 ON" "" =
          Except.error (CmError.protocolError
            ("Unexpected status line format: "
              ++ pyStrList (reSplitWS (pyStrip "IEF001 ON")))) :=
  ⟨by decide, c3_field_count_protocol_error "IEF001 ON" "" (by decide)⟩

/-- C4: scenario A — the `ls2 IEF001` transaction unframes the response to
the documented body, and parsing the resulting status line yields is_on,
thermostat 21.0, temperature 23.5, celsius, fan speed "med", mode "cool",
no error code, clean_filter false, demand false (swing off). -/
theorem c4_scenario_a :
    makeRequest "ls2 IEF001"
        ⟨some ">", some " IEF001 ON    021.0C 023.5C Med  Cool  OK - 0\r\nOK\r\n>"⟩
      = (Except.ok " IEF001 ON    021.0C 023.5C Med  Cool  OK - 0\r\n", ["ls2 IEF001\n"])
    ∧ parseUnit " IEF001 ON    021.0C 023.5C Med  Cool  OK - 0" "" =
        Except.ok ⟨true, "celsius", 21.0, 23.5, "med", "cool", none, false, false, none⟩ := by
  constructor
  · decide
  · have h2 : partsVal ⟨1, 21, 0, 1⟩ = 21.0 := by norm_num [partsVal]
    have h3 : partsVal ⟨1, 23, 5, 1⟩ = 23.5 := by norm_num [partsVal]
    calc parseUnit " IEF001 ON    021.0C 023.5C Med  Cool  OK - 0" ""
        = Except.ok ⟨true, "celsius", partsVal ⟨1, 21, 0, 1⟩, partsVal ⟨1, 23, 5, 1⟩,
            "med", "cool", none, false, false, none⟩ := rfl
      _ = Except.ok ⟨true, "celsius", 21.0, 23.5, "med", "cool", none, false, false, none⟩ := by
          rw [h2, h3]

/-- C5, counterexample: the token round-trip claimed for every valid 9-field
status line cannot hold, because two valid lines that differ only in the
textual form of field 2 ("021.0C" from scenario A versus the canonical
"21.0C") parse to the same snapshot — so no re-serialization of the parsed
values can reproduce both original tokens. -/
theorem c5_roundtrip_counterexample :
    parseUnit "IEF001 ON 021.0C 023.5C Med Cool OK - 0" ""
        = parseUnit "IEF001 ON 21.0C 023.5C Med Cool OK - 0" ""
      ∧ (reSplitWS (pyStrip "IEF001 ON 021.0C 023.5C Med Cool OK - 0")).getD 2 "" = "021.0C"
      ∧ (reSplitWS (pyStrip "IEF001 ON 21.0C 023.5C Med Cool OK - 0")).getD 2 "" = "21.0C"
      ∧ ("021.0C" : String) ≠ "21.0C" := by
  refine ⟨rfl, by decide, by decide, by decide⟩

/-- C5 (amended): the round-trip holds exactly on canonically formatted
temperature tokens: for every value of `n` tenths and every unit name, the
canonical token (digits with no leading zero, one fractional digit, unit
suffix carried separately as `temperature_unit`) parses back to exactly
that value and that unit, so parsing followed by re-serialization
reproduces canonical field-2/field-3 tokens exactly; non-canonical tokens
such as scenario A's "021.0C" are not reproduced. -/
theorem c5_roundtrip_amended (n : Nat) (u : String)
    (hu : u = "celsius" ∨ u = "imperial") :
    tempToken (canonicalToken n u) = Except.ok ((n : Rat) / 10)
      ∧ unitOfToken (canonicalToken n u) = u := by
  have hdigs := natDigits_isDigit (n / 10)
  have hnn := natDigits_ne_nil (n / 10)
  have hcd : (Nat.digitChar (n % 10)).isDigit = true :=
    digitChar_isDigit _ (Nat.mod_lt n (by omega))
  have hparts := pyFloatParts_canonical (natDigits (n / 10)) (Nat.digitChar (n % 10)) hnn hdigs hcd
  have hval : digitsVal [Nat.digitChar (n % 10)] = n % 10 := by
    have := digitVal_digitChar (n % 10) (Nat.mod_lt n (by omega))
    simp [digitsVal_cons, digitsVal, this]
  rcases hu with rfl | rfl
  · have htl : (canonicalToken n "celsius").toList
        = (natDigits (n / 10) ++ '.' :: [Nat.digitChar (n % 10)]) ++ ['C'] := by
      simp [canonicalToken, toList_append, toList_mk, List.append_assoc]
    have h1 : ((natDigits (n / 10) ++ '.' :: [Nat.digitChar (n % 10)]) ++ ['C']).length - 1
        = (natDigits (n / 10) ++ '.' :: [Nat.digitChar (n % 10)]).length := by
      simp only [List.length_append, List.length_cons, List.length_nil]
      omega
    have hdrop : pyDropRight (canonicalToken n "celsius") 1
        = String.mk (natDigits (n / 10) ++ '.' :: [Nat.digitChar (n % 10)]) := by
      rw [pyDropRight, htl, h1, List.take_left]
    constructor
    · rw [tempToken, hdrop, pyFloat, hparts]
      simp only [Option.map_some']
      rw [digitsVal_natDigits, hval, partsVal_tenths]
    · rw [unitOfToken, pyLastChar, htl, List.getLastD_concat]
      rfl
  · have htl : (canonicalToken n "imperial").toList
        = (natDigits (n / 10) ++ '.' :: [Nat.digitChar (n % 10)]) ++ ['F'] := by
      simp [canonicalToken, toList_append, toList_mk, List.append_assoc]
    have h1 : ((natDigits (n / 10) ++ '.' :: [Nat.digitChar (n % 10)]) ++ ['F']).length - 1
        = (natDigits (n / 10) ++ '.' :: [Nat.digitChar (n % 10)]).length := by
      simp only [List.length_append, List.length_cons, List.length_nil]
      omega
    have hdrop : pyDropRight (canonicalToken n "imperial") 1
        = String.mk (natDigits (n / 10) ++ '.' :: [Nat.digitChar (n % 10)]) := by
      rw [pyDropRight, htl, h1, List.take_left]
    constructor
    · rw [tempToken, hdrop, pyFloat, hparts]
      simp only [Option.map_some']
      rw [digitsVal_natDigits, hval, partsVal_tenths]
    · rw [unitOfToken, pyLastChar, htl, List.getLastD_concat]
      rfl

/-- Witness for `c5_roundtrip_amended`: 21.5 degrees celsius. -/
theorem c5_roundtrip_amended_witness :
    (("celsius" : String) = "celsius" ∨ ("celsius" : String) = "imperial")
      ∧ tempToken (canonicalToken 215 "celsius") = Except.ok (((215 : Nat) : Rat) / 10)
      ∧ unitOfToken (canonicalToken 215 "celsius") = "celsius" :=
  ⟨Or.inl rfl, c5_roundtrip_amended 215 "celsius" (Or.inl rfl)⟩

/-- C6: `set_mode` rejects every value outside the mode set with the
ValueError listing the valid values, and issues no wire request at all
(in particular for "turbo", as checked in the witness). -/
theorem c6_set_mode_rejects (ss : Bool) (uid v : String)
    (h : MODES.contains v = false) :
    set_mode_trace ss uid v =
      ([], some (CmError.valueError
        ("Unrecognized mode " ++ v ++ ". Valid values: "
          ++ String.intercalate " " MODES))) := by
  have h' : v ∉ MODES := by simpa using h
  simp [set_mode_trace, h']

/-- Witness for `c6_set_mode_rejects`: scenario C, mode "turbo". -/
theorem c6_set_mode_rejects_witness :
    MODES.contains "turbo" = false
      ∧ set_mode_trace false "IEF001" "turbo" =
          ([], some (CmError.valueError
            ("Unrecognized mode turbo. Valid values: "
              ++ String.intercalate " " MODES))) :=
  ⟨by decide, c6_set_mode_rejects false "IEF001" "turbo" (by decide)⟩

/-- C7: `set_swing` rejects any name outside the 7-entry swing set with a
ValueError and no wire traffic; and for a valid name whose response starts
with "Unsupported Feature" it sends exactly the swing command, raises the
ValueError naming the unit and the requested mode, and issues no refresh
request. -/
theorem c7_set_swing_errors (ss : Bool) (uid good bad resp : String)
    (hgood : SWING_MODES.contains good = true)
    (hbad : SWING_MODES.contains bad = false)
    (hresp : pyStartsWith resp "Unsupported Feature" = true) :
    set_swing_trace ss uid bad resp =
      ([], some (CmError.valueError
        ("Unrecognized swing mode " ++ bad ++ ". Valid values: "
          ++ String.intercalate ", " SWING_MODES)))
    ∧ set_swing_trace ss uid good resp =
        ([make_unit_request_text uid ("swing UID " ++ swingChar good)],
         some (CmError.valueError
           ("Unit " ++ uid ++ " doesn't support swing mode " ++ good ++ "."))) := by
  have hbad' : bad ∉ SWING_MODES := by simpa using hbad
  have hgood' : good ∈ SWING_MODES := by simpa using hgood
  constructor
  · simp [set_swing_trace, hbad']
  · simp [set_swing_trace, hgood', hresp]

/-- Witness for `c7_set_swing_errors`: valid "auto" against an
"Unsupported Feature" reply, invalid "sideways". -/
theorem c7_set_swing_errors_witness :
    SWING_MODES.contains "auto" = true
      ∧ SWING_MODES.contains "sideways" = false
      ∧ pyStartsWith "Unsupported Feature in this unit" "Unsupported Feature" = true
      ∧ (set_swing_trace false "IEF001" "sideways" "Unsupported Feature in this unit" =
          ([], some (CmError.valueError
            ("Unrecognized swing mode sideways. Valid values: "
              ++ String.intercalate ", " SWING_MODES)))
        ∧ set_swing_trace false "IEF001" "auto" "Unsupported Feature in this unit" =
            ([make_unit_request_text "IEF001" ("swing UID " ++ swingChar "auto")],
             some (CmError.valueError "Unit IEF001 doesn't support swing mode auto."))) :=
  ⟨by decide, by decide, by decide,
    c7_set_swing_errors false "IEF001" "auto" "sideways" "Unsupported Feature in this unit"
      (by decide) (by decide) (by decide)⟩

/-- C8: `info` runs the transaction with request "set" (the request line
written is "set" plus newline), splits the body on CRLF, splits each line
exactly once at a colon with surrounding whitespace discarded, and builds
the key-value mapping with later duplicates overwriting earlier ones;
scenario B's response yields exactly the documented two-entry mapping. -/
theorem c8_info_mapping :
    makeRequest "set" ⟨some ">", some "Unit: X\r\nVersion: 1.0\r\nOK\r\n>"⟩
        = (Except.ok "Unit: X\r\nVersion: 1.0\r\n", ["set\n"])
      ∧ infoParse "Unit: X\r\nVersion: 1.0\r\n"
          = some [("Unit", "X"), ("Version", "1.0")]
      ∧ reSplitColon1 "Key  :  value : x" = ["Key", "value : x"]
      ∧ ∀ (d : List (String × String)) (k v : String),
          pyGet (dictInsert d k v) k = some v :=
  ⟨by decide, by decide, by decide, fun d k v => pyGet_dictInsert d k v⟩

/-- C9: in every state reachable from any number of concurrent transactions
on a fresh bridge, at most 3 sockets are open; the semaphore counter plus
the held slots always account for exactly the capacity 3 (so the counter
never goes negative and no slot is leaked: whenever no slot is held the
counter is back at 3); and when the counter is 0 no further transaction can
be admitted — a 4th concurrent request stays in `ready` until a slot
frees. -/
theorem c9_pool_invariant (n : Nat) (s : PoolState) (h : PoolReachable n s) :
    openConns s ≤ 3
      ∧ s.avail + heldSlots s = 3
      ∧ (heldSlots s = 0 → s.avail = 3)
      ∧ (s.avail = 0 → ∀ s', PoolStep s s' → s'.nReady = s.nReady) := by
  have inv : s.avail + heldSlots s = 3 := by
    induction h with
    | refl => simp [poolInit, heldSlots]
    | tail hr step ih => cases step <;> simp [heldSlots] at ih ⊢ <;> omega
  refine ⟨?_, inv, ?_, ?_⟩
  · simp only [openConns, heldSlots] at inv ⊢
    omega
  · intro h0
    omega
  · intro h0 s' step
    cases step <;> simp_all

/-- Witness for `c9_pool_invariant`: the state after one acquisition by one
of 4 concurrent transactions. -/
theorem c9_pool_invariant_witness :
    PoolReachable 4 ⟨2, 3, 1, 0, 0, 0⟩
      ∧ (openConns ⟨2, 3, 1, 0, 0, 0⟩ ≤ 3
        ∧ (⟨2, 3, 1, 0, 0, 0⟩ : PoolState).avail + heldSlots ⟨2, 3, 1, 0, 0, 0⟩ = 3
        ∧ (heldSlots ⟨2, 3, 1, 0, 0, 0⟩ = 0 → (⟨2, 3, 1, 0, 0, 0⟩ : PoolState).avail = 3)
        ∧ ((⟨2, 3, 1, 0, 0, 0⟩ : PoolState).avail = 0 →
            ∀ s', PoolStep ⟨2, 3, 1, 0, 0, 0⟩ s' →
              s'.nReady = (⟨2, 3, 1, 0, 0, 0⟩ : PoolState).nReady)) :=
  ⟨Relation.ReflTransGen.single (PoolStep.acquire 2 3 0 0 0 0),
    c9_pool_invariant 4 ⟨2, 3, 1, 0, 0, 0⟩
      (Relation.ReflTransGen.single (PoolStep.acquire 2 3 0 0 0 0))⟩

/-- C10: a 9-field line whose thermostat token has no numeric prefix (field
2 being "C", or "abcC") fails with the generic numeric-conversion
ValueError from `float(token[:-1])` — reporting the token minus its last
character — and not with the ProtocolError reserved for malformed field
counts. -/
theorem c10_numeric_value_error :
    parseUnit "IEF001 ON C 023.5C Med Cool OK - 0" ""
        = Except.error (CmError.valueError "could not convert string to float: ''")
      ∧ parseUnit "IEF001 ON abcC 023.5C Med Cool OK - 0" ""
          = Except.error (CmError.valueError "could not convert string to float: 'abc'")
      ∧ ∀ m m', CmError.valueError m ≠ CmError.protocolError m' :=
  ⟨by decide, by decide, fun _ _ h => CmError.noConfusion h⟩
